import Mathlib

/-!
Verification of the synacor-challenge virtual machine (src/main.rs, src/opcodes.rs).

The machine state, the error taxonomy, the helper operations
(get_register, set_register, write, read), every dispatched opcode
handler, the dispatcher exec_next, and the execution loop run are
translated from the Rust source.

Modelling conventions:
- All u16 cells are modelled as Nat.  The program counter cur is a u16 in
  the source; every place the source performs u16 addition on cur we guard
  with u16add, which panics on overflow (the crate builds with the default
  dev profile, where integer overflow panics).  Index arithmetic performed
  in usize (operand offsets cur + 1, cur + 2 and the post-increment
  subtractions cur - k, which never underflow because cur was just
  incremented past k) is plain Nat arithmetic.
- Vec indexing out of bounds, u16 overflow and division by zero are Rust
  panics; they are modelled by the panic outcome, distinct from the
  returned ExecutionError faults.
- The stack is a VecDeque used only through push_back / pop_back, i.e. a
  LIFO stack; it is modelled as a List with the back (top) at the head.
- char_out prints the low byte of its resolved operand to stdout; console
  output is outside the state, so the model drops the printed byte but
  keeps the operand resolution (which can fault) and the cursor update.
- char_in (reading stdin) exists in opcodes.rs but is never dispatched by
  exec_next, so no stdin model is needed for the dispatched machine.
-/

/-- The maximum number that can be used as an address on this machine
(MAX_ADDR = 2^15 in main.rs). -/
def MAX_ADDR : Nat := 32768

/-- The error enum of main.rs.  ReadError carries the formatted io error
text in the source. -/
inductive ExecutionError where
  | Halt
  | InvalidOpcode (op : Nat) (pos : Nat)
  | InvalidRegister (reg : Nat) (pos : Nat)
  | EmptyStack (pos : Nat)
  | InvalidAddress (addr : Nat) (pos : Nat)
  | EmptyStdin (pos : Nat)
  | ReadError (detail : String) (pos : Nat)
deriving DecidableEq, Repr

/-- Outcome of running a fallible piece of the interpreter: a value, a
returned ExecutionError, or a Rust panic (out-of-bounds indexing,
arithmetic overflow, division by zero). -/
inductive ExecResult (α : Type) where
  | ok (a : α)
  | fault (e : ExecutionError)
  | panic
deriving DecidableEq, Repr

def ExecResult.bind {α β : Type} : ExecResult α → (α → ExecResult β) → ExecResult β
  | .ok a, f => f a
  | .fault e, _ => .fault e
  | .panic, _ => .panic

instance : Monad ExecResult where
  pure := ExecResult.ok
  bind := ExecResult.bind

/-- Rust Vec indexing `v[i]`: panics when the index is out of bounds. -/
def vecGet (v : List Nat) (i : Nat) : ExecResult Nat :=
  match v.get? i with
  | some x => .ok x
  | none => .panic

/-- Rust Vec index assignment `v[i] = x`: panics when out of bounds. -/
def vecSet (v : List Nat) (i x : Nat) : ExecResult (List Nat) :=
  if i < v.length then .ok (v.set i x) else .panic

/-- u16 addition (`self.cur += k` and `self.cur + 1` in the source):
overflow past 65535 panics in the dev profile. -/
def u16add (a b : Nat) : ExecResult Nat :=
  if a + b < 65536 then .ok (a + b) else .panic

/-- MachineState of main.rs: mem is the whole RAM Vec, cur the index of
the current operation, registers the 8 registers, stack the VecDeque
(top at the head here). -/
structure MachineState where
  mem : List Nat
  cur : Nat
  registers : List Nat
  stack : List Nat
deriving DecidableEq, Repr

/-- MachineState::new. -/
def MachineState.new (mem : List Nat) : MachineState :=
  { mem := mem, cur := 0, registers := List.replicate 8 0, stack := [] }

/-- MachineState::get_register: checked_sub(MAX_ADDR) fails (InvalidRegister)
for register < MAX_ADDR, then registers.get fails (InvalidRegister) for an
index past the register file. -/
def MachineState.get_register (s : MachineState) (register pos : Nat) : ExecResult Nat :=
  if register < MAX_ADDR then .fault (.InvalidRegister register pos)
  else
    match s.registers.get? (register - MAX_ADDR) with
    | some v => .ok v
    | none => .fault (.InvalidRegister register pos)

/-- MachineState::set_register, same validation as get_register. -/
def MachineState.set_register (s : MachineState) (register val pos : Nat) :
    ExecResult MachineState :=
  if register < MAX_ADDR then .fault (.InvalidRegister register pos)
  else if register - MAX_ADDR < s.registers.length then
    .ok { s with registers := s.registers.set (register - MAX_ADDR) val }
  else .fault (.InvalidRegister register pos)

/-- MachineState::write: destination below MAX_ADDR is a raw memory index
(Vec assignment, panics out of bounds), otherwise a register write. -/
def MachineState.write (s : MachineState) (write_to val pos : Nat) :
    ExecResult MachineState :=
  if write_to < MAX_ADDR then do
    let mem' ← vecSet s.mem write_to val
    pure { s with mem := mem' }
  else s.set_register write_to val pos

/-- MachineState::read: source below MAX_ADDR is a raw memory index
(Vec access, panics out of bounds), otherwise a register read. -/
def MachineState.read (s : MachineState) (read_from pos : Nat) : ExecResult Nat :=
  if read_from < MAX_ADDR then vecGet s.mem read_from
  else s.get_register read_from pos

/-- The operand-resolution pattern repeated in every handler of
opcodes.rs: a raw word below MAX_ADDR is the literal value itself,
anything else is read through get_register.  In the source the position
reported on a register fault is always the operand's own index. -/
def MachineState.resolveWord (s : MachineState) (w pos : Nat) : ExecResult Nat :=
  if w < MAX_ADDR then .ok w else s.get_register w pos

/-- Fetch the raw word at index i and resolve it (the full inline
`match self.mem[i] { val if val < MAX_ADDR => val, val => self.get_register(val, i)? }`
pattern of the handlers). -/
def MachineState.resolve (s : MachineState) (i : Nat) : ExecResult Nat := do
  let w ← vecGet s.mem i
  s.resolveWord w i

/-- Opcode 0: halt. -/
def MachineState.halt (_s : MachineState) : ExecResult MachineState :=
  .fault .Halt

/-- Opcode 1: set.  The raw destination word a goes straight to
set_register; cur advances by 2. -/
def MachineState.set (s : MachineState) : ExecResult MachineState := do
  let a ← vecGet s.mem s.cur
  let b ← s.resolve (s.cur + 1)
  let cur' ← u16add s.cur 2
  MachineState.set_register { s with cur := cur' } a b (cur' - 2)

/-- Opcode 2: push. -/
def MachineState.push (s : MachineState) : ExecResult MachineState := do
  let a ← s.resolve s.cur
  let cur' ← u16add s.cur 1
  pure { s with stack := a :: s.stack, cur := cur' }

/-- Opcode 3: pop.  Empty stack is EmptyStack(cur - 1); otherwise the top
is written through write to the raw destination word.  Note the source
never advances cur here. -/
def MachineState.pop (s : MachineState) : ExecResult MachineState :=
  match s.stack with
  | [] => .fault (.EmptyStack (s.cur - 1))
  | top :: rest => do
    let a ← vecGet s.mem s.cur
    MachineState.write { s with stack := rest } a top s.cur

/-- Opcode 4: eq.  b and c are resolved first; after cur += 3 the raw
destination word is read back from mem[cur - 3]. -/
def MachineState.eq (s : MachineState) : ExecResult MachineState := do
  let b ← s.resolve (s.cur + 1)
  let c ← s.resolve (s.cur + 2)
  let cur' ← u16add s.cur 3
  let a ← vecGet s.mem (cur' - 3)
  MachineState.write { s with cur := cur' } a (if b = c then 1 else 0) (cur' - 3)

/-- Opcode 5: gt. -/
def MachineState.gt (s : MachineState) : ExecResult MachineState := do
  let b ← s.resolve (s.cur + 1)
  let c ← s.resolve (s.cur + 2)
  let cur' ← u16add s.cur 3
  let a ← vecGet s.mem (cur' - 3)
  MachineState.write { s with cur := cur' } a (if c < b then 1 else 0) (cur' - 3)

/-- Opcode 6: jmp.  The resolved operand below MAX_ADDR becomes cur,
otherwise InvalidAddress(a, cur). -/
def MachineState.jmp (s : MachineState) : ExecResult MachineState := do
  let a ← s.resolve s.cur
  if a < MAX_ADDR then pure { s with cur := a }
  else .fault (.InvalidAddress a s.cur)

/-- Opcode 7: jt.  An out-of-range target faults even when a is zero. -/
def MachineState.jmp_true (s : MachineState) : ExecResult MachineState := do
  let a ← s.resolve s.cur
  let b ← s.resolve (s.cur + 1)
  if MAX_ADDR ≤ b then .fault (.InvalidAddress b (s.cur + 1))
  else if a ≠ 0 then pure { s with cur := b }
  else do
    let cur' ← u16add s.cur 2
    pure { s with cur := cur' }

/-- Opcode 8: jf. -/
def MachineState.jmp_false (s : MachineState) : ExecResult MachineState := do
  let a ← s.resolve s.cur
  let b ← s.resolve (s.cur + 1)
  if MAX_ADDR ≤ b then .fault (.InvalidAddress b (s.cur + 1))
  else if a = 0 then pure { s with cur := b }
  else do
    let cur' ← u16add s.cur 2
    pure { s with cur := cur' }

/-- Opcode 9: add.  The source computes in usize and reduces modulo
MAX_ADDR before the write. -/
def MachineState.add (s : MachineState) : ExecResult MachineState := do
  let a ← vecGet s.mem s.cur
  let b ← s.resolve (s.cur + 1)
  let c ← s.resolve (s.cur + 2)
  let cur' ← u16add s.cur 3
  MachineState.write { s with cur := cur' } a ((b + c) % MAX_ADDR) (cur' - 3)

/-- Opcode 10: mult. -/
def MachineState.mult (s : MachineState) : ExecResult MachineState := do
  let a ← vecGet s.mem s.cur
  let b ← s.resolve (s.cur + 1)
  let c ← s.resolve (s.cur + 2)
  let cur' ← u16add s.cur 3
  MachineState.write { s with cur := cur' } a ((b * c) % MAX_ADDR) (cur' - 3)

/-- Opcode 11: mod.  Rust u16 % panics when the divisor is zero. -/
def MachineState.modulo (s : MachineState) : ExecResult MachineState := do
  let a ← vecGet s.mem s.cur
  let b ← s.resolve (s.cur + 1)
  let c ← s.resolve (s.cur + 2)
  let cur' ← u16add s.cur 3
  if c = 0 then .panic
  else MachineState.write { s with cur := cur' } a (b % c) (cur' - 3)

/-- Opcode 12: and. -/
def MachineState.and (s : MachineState) : ExecResult MachineState := do
  let a ← vecGet s.mem s.cur
  let b ← s.resolve (s.cur + 1)
  let c ← s.resolve (s.cur + 2)
  let cur' ← u16add s.cur 3
  MachineState.write { s with cur := cur' } a (b &&& c) (cur' - 3)

/-- Opcode 13: or. -/
def MachineState.or (s : MachineState) : ExecResult MachineState := do
  let a ← vecGet s.mem s.cur
  let b ← s.resolve (s.cur + 1)
  let c ← s.resolve (s.cur + 2)
  let cur' ← u16add s.cur 3
  MachineState.write { s with cur := cur' } a (b ||| c) (cur' - 3)

/-- Opcode 14: not.  The source writes Rust `!b`, the 16-bit complement
of the u16 operand, i.e. b XOR 65535. -/
def MachineState.not (s : MachineState) : ExecResult MachineState := do
  let a ← vecGet s.mem s.cur
  let b ← s.resolve (s.cur + 1)
  let cur' ← u16add s.cur 2
  MachineState.write { s with cur := cur' } a (b ^^^ 65535) (cur' - 2)

/-- Opcode 15: rmem.  The source assigns the value read at resolved b
directly into mem[cur] (the cell holding operand a), then cur += 2. -/
def MachineState.rmem (s : MachineState) : ExecResult MachineState := do
  let b ← s.resolve (s.cur + 1)
  let v ← s.read b (s.cur + 1)
  let mem' ← vecSet s.mem s.cur v
  let cur' ← u16add s.cur 2
  pure { s with mem := mem', cur := cur' }

/-- Opcode 16: wmem.  After resolving b the source calls
self.read(b, cur + 1) — a further memory (or register) read at the
resolved value — and writes that to the raw destination word a.  The
dbg! wrapper only prints the value. -/
def MachineState.wmem (s : MachineState) : ExecResult MachineState := do
  let a ← vecGet s.mem s.cur
  let b ← s.resolve (s.cur + 1)
  let cur' ← u16add s.cur 2
  let v ← MachineState.read { s with cur := cur' } b (cur' - 1)
  MachineState.write { s with cur := cur' } a v (cur' - 2)

/-- Opcode 17: call.  cur + 1 is pushed first; then the raw operand word
is used as the target: any word at or above MAX_ADDR is
InvalidAddress(word, cur) — registers are never resolved here. -/
def MachineState.call (s : MachineState) : ExecResult MachineState := do
  let next_instr ← u16add s.cur 1
  let t : MachineState := { s with stack := next_instr :: s.stack }
  let w ← vecGet t.mem t.cur
  if w < MAX_ADDR then pure { t with cur := w }
  else .fault (.InvalidAddress w t.cur)

/-- Opcode 18: ret.  Empty stack is Halt; a popped value at or above
MAX_ADDR is InvalidAddress, otherwise it becomes cur. -/
def MachineState.ret (s : MachineState) : ExecResult MachineState :=
  match s.stack with
  | [] => .fault .Halt
  | ret_to :: rest =>
    if ret_to < MAX_ADDR then .ok { s with cur := ret_to, stack := rest }
    else .fault (.InvalidAddress ret_to s.cur)

/-- Opcode 19: out.  The resolved operand's low byte is printed (console
output, outside the state); cur advances by 1. -/
def MachineState.char_out (s : MachineState) : ExecResult MachineState := do
  let _a ← s.resolve s.cur
  let cur' ← u16add s.cur 1
  pure { s with cur := cur' }

/-- Opcode 21: noop. -/
def MachineState.no_op (s : MachineState) : ExecResult MachineState :=
  .ok s

/-- MachineState::exec_next: cur += 1, then dispatch on mem[cur - 1].
The match in main.rs has arms for 0 through 19 and 21; opcode 20 falls
through to the InvalidOpcode arm. -/
def MachineState.exec_next (s : MachineState) : ExecResult MachineState := do
  let cur' ← u16add s.cur 1
  let t : MachineState := { s with cur := cur' }
  let op ← vecGet t.mem (t.cur - 1)
  match op with
  | 0 => t.halt
  | 1 => t.set
  | 2 => t.push
  | 3 => t.pop
  | 4 => t.eq
  | 5 => t.gt
  | 6 => t.jmp
  | 7 => t.jmp_true
  | 8 => t.jmp_false
  | 9 => t.add
  | 10 => t.mult
  | 11 => t.modulo
  | 12 => t.and
  | 13 => t.or
  | 14 => t.not
  | 15 => t.rmem
  | 16 => t.wmem
  | 17 => t.call
  | 18 => t.ret
  | 19 => t.char_out
  | 21 => t.no_op
  | other => .fault (.InvalidOpcode other (t.cur - 1))

/-- The body of MachineState::run, counting down the remaining loop
iterations: each exec_next error is returned at once, and after the
iterations are exhausted the loop falls through to Ok. -/
def runFor : Nat → MachineState → ExecResult MachineState
  | 0, s => .ok s
  | n + 1, s =>
    match s.exec_next with
    | .ok s' => runFor n s'
    | .fault e => .fault e
    | .panic => .panic

/-- MachineState::run: `for _ in 0..MAX_ADDR { self.exec_next()? }` then
Ok.  The source returns Ok(()) mutating self; the model returns the final
state on success. -/
def MachineState.run (s : MachineState) : ExecResult MachineState :=
  runFor MAX_ADDR s

/-! Concrete machines used by the individual claims. -/

/-- Machine for claim C1: wmem with destination word 0 and operand word 7
(a literal, so resolved b = 7); cell 7 holds 5. -/
def mach1 : MachineState := MachineState.new [16, 0, 7, 0, 0, 0, 0, 5]

/-- Machine for claim C2: rmem with destination word 5 and address word 0;
memory at the resolved address 0 holds the opcode 15. -/
def mach2 : MachineState := MachineState.new [15, 5, 0, 0, 0, 0]

/-- Machine for claim C3: pop at position 0 (destination word 0) with a
one-element stack. -/
def mach3 : MachineState :=
  { mem := [3, 0], cur := 0, registers := List.replicate 8 0, stack := [10] }

/-- Machine for claim C4: opcode 20 at position 0. -/
def mach4 : MachineState := MachineState.new [20, 0]

/-- Machine for claim C5: jmp 0 at position 0, an obvious infinite loop
whose single step returns the machine to its exact starting state. -/
def mach5 : MachineState := MachineState.new [6, 0]

/-- Machine for claim C6: not with destination word 0 and literal operand 1. -/
def mach6 : MachineState := MachineState.new [14, 0, 1]

/-- Machine for claim C7: call with operand word 32768 (register 0) while
register 0 holds the valid address 5. -/
def mach7 : MachineState :=
  { mem := [17, 32768], cur := 0,
    registers := 5 :: List.replicate 7 0, stack := [] }

/-- Machine for claim C8's witness: a register file with distinct
contents. -/
def mach8 : MachineState :=
  { mem := [], cur := 0,
    registers := [11, 22, 33, 44, 55, 66, 77, 88], stack := [] }

/-- Machine for claim C9's counterexample: ret with an out-of-range
address on top of the stack. -/
def mach9 : MachineState :=
  { mem := [18], cur := 0, registers := List.replicate 8 0, stack := [40000] }

/-- Machine for claim C9's witness: ret with a valid address on top of
the stack. -/
def mach9w : MachineState :=
  { mem := [18], cur := 0, registers := List.replicate 8 0, stack := [7] }

/-- A full 32768-cell memory image for claim C10: jmp 32767 at position 0,
noop at position 32767, zeroes in between. -/
def mem10 : List Nat := 6 :: 32767 :: (List.replicate 32765 0 ++ [21])

/-- Machine for claim C10's counterexample, freshly constructed from the
full image. -/
def mach10 : MachineState := MachineState.new mem10

/-- Machine for claim C10's witness: the program counter already sits at
the address-space size. -/
def mach10w : MachineState :=
  { mem := [], cur := 32768, registers := List.replicate 8 0, stack := [] }

/-! General lemmas about the embedding. -/

@[simp]
theorem ExecResult.bind_ok {α β : Type} (a : α) (f : α → ExecResult β) :
    (ExecResult.ok a >>= f) = f a := rfl

@[simp]
theorem ExecResult.bind_fault {α β : Type} (e : ExecutionError) (f : α → ExecResult β) :
    ((ExecResult.fault e : ExecResult α) >>= f) = .fault e := rfl

@[simp]
theorem ExecResult.bind_panic {α β : Type} (f : α → ExecResult β) :
    ((ExecResult.panic : ExecResult α) >>= f) = .panic := rfl

theorem u16add_ok {a b : Nat} (h : a + b < 65536) : u16add a b = .ok (a + b) := by
  unfold u16add
  exact if_pos h

/-- If a step maps a state to itself, any number of loop iterations ends
in success on that same state. -/
theorem runFor_fixpoint (s : MachineState) (h : s.exec_next = .ok s) :
    ∀ n, runFor n s = .ok s := by
  intro n
  induction n with
  | zero => rfl
  | succ n ih =>
    simp only [runFor, h]
    exact ih

/-- A fetch whose index is at or past the end of the memory Vec is an
out-of-bounds access: exec_next panics instead of returning a fault. -/
theorem exec_next_fetch_oob (s : MachineState) (h : s.mem.length ≤ s.cur) :
    s.exec_next = .panic := by
  by_cases h16 : s.cur + 1 < 65536
  · have hnone : s.mem[s.cur]? = none := by
      rw [← List.get?_eq_getElem?]
      exact List.get?_eq_none.mpr h
    simp [MachineState.exec_next, u16add_ok h16, vecGet, hnone]
  · simp [MachineState.exec_next, u16add, h16]

/-- A noop opcode under the cursor advances the cursor by one and changes
nothing else. -/
theorem exec_next_noop (s : MachineState) (h16 : s.cur + 1 < 65536)
    (hop : s.mem[s.cur]? = some 21) :
    s.exec_next = .ok { s with cur := s.cur + 1 } := by
  simp [MachineState.exec_next, u16add_ok h16, vecGet, hop, MachineState.no_op]

theorem replicate_len : (List.replicate 32765 (0 : Nat)).length = 32765 :=
  List.length_replicate ..

theorem mem10_length : mem10.length = 32768 := by
  show (6 :: 32767 :: (List.replicate 32765 0 ++ [21])).length = 32768
  rw [List.length_cons, List.length_cons, List.length_append, replicate_len]
  rfl

theorem mem10_get_32767 : mem10.get? 32767 = some 21 := by
  show (6 :: 32767 :: (List.replicate 32765 0 ++ [21])).get? 32767 = some 21
  rw [List.get?_cons_succ, List.get?_cons_succ,
    List.get?_append_right replicate_len.le, replicate_len]
  norm_num

/-! Sanity checks mirroring the unit tests of opcodes.rs. -/

example : (MachineState.new [1, 32768, 10]).exec_next =
    .ok { mem := [1, 32768, 10], cur := 3,
          registers := [10, 0, 0, 0, 0, 0, 0, 0], stack := [] } := by decide

example :
    MachineState.exec_next
      { mem := [9, 32768, 32769, 4, 19, 32768], cur := 0,
        registers := [0, 60, 0, 0, 0, 0, 0, 0], stack := [] } =
    .ok { mem := [9, 32768, 32769, 4, 19, 32768], cur := 4,
          registers := [64, 60, 0, 0, 0, 0, 0, 0], stack := [] } := by decide

example :
    MachineState.exec_next
      { mem := [9, 32768, 32769, 4, 19, 32768], cur := 4,
        registers := [64, 60, 0, 0, 0, 0, 0, 0], stack := [] } =
    .ok { mem := [9, 32768, 32769, 4, 19, 32768], cur := 6,
          registers := [64, 60, 0, 0, 0, 0, 0, 0], stack := [] } := by decide

example : (MachineState.new [65535]).exec_next =
    .fault (.InvalidOpcode 65535 0) := by decide

example : (MachineState.new [6, 32768]).exec_next =
    .ok { mem := [6, 32768], cur := 0,
          registers := List.replicate 8 0, stack := [] } := by decide

example : (MachineState.new [4, 0, 2, 2]).exec_next =
    .ok { mem := [1, 0, 2, 2], cur := 4,
          registers := List.replicate 8 0, stack := [] } := by decide

/-! Claim C1: wmem stores the resolved value of b itself, with no further
memory read. -/

/-- Claim C1 is false on the code: wmem does not store the resolved value
of b itself.  After resolving b = 7 the handler performs a further memory
read, self.read(7), and stores that value (5) into memory at address 0,
instead of storing 7. -/
theorem C1_wmem_performs_extra_read :
    mach1.exec_next =
      .ok { mem := [5, 0, 7, 0, 0, 0, 0, 5], cur := 3,
            registers := List.replicate 8 0, stack := [] } := by decide

/-! Claim C2: rmem writes the loaded value into the destination resolved
from operand a. -/

/-- Claim C2 is false on the code: rmem ignores the destination operand's
value (5) and assigns the loaded value 15 directly into the operand cell
itself, mem[1]; destination cell 5 is left untouched. -/
theorem C2_rmem_writes_into_operand_cell :
    mach2.exec_next =
      .ok { mem := [15, 15, 0, 0, 0, 0], cur := 3,
            registers := List.replicate 8 0, stack := [] } := by decide

/-! Claim C3: non-control-flow opcodes advance the counter by their fixed
instruction width. -/

/-- Claim C3 is false on the code: a successful pop leaves the program
counter at its opcode position plus 1 (here cur = 1, still pointing at the
operand), not plus 2 as the fixed instruction width requires; the handler
never advances past its operand. -/
theorem C3_pop_does_not_advance :
    mach3.exec_next =
      .ok { mem := [10, 0], cur := 1,
            registers := List.replicate 8 0, stack := [] } := by decide

/-! Claim C4: every opcode 0 through 21 is dispatched; in particular
opcode 20 reads input. -/

/-- Claim C4 is false on the code: the dispatch match of exec_next has no
arm for opcode 20, so the in opcode falls through to the catch-all and
faults with InvalidOpcode(20, 0) instead of reading a byte of input (the
char_in handler exists in opcodes.rs but is never called). -/
theorem C4_opcode20_faults_invalid :
    mach4.exec_next = .fault (.InvalidOpcode 20 0) := by decide

/-! Claim C5: the execution loop never stops a fault-free, non-halting
program on its own. -/

/-- Claim C5 is false on the code: mach5 steps to itself forever (its one
step neither halts nor faults), yet run returns success — the loop stops
this fault-free, non-halting program on its own after its implicit
MAX_ADDR-iteration bound. -/
theorem C5_run_succeeds_without_halt :
    mach5.exec_next = .ok mach5 ∧ mach5.run = .ok mach5 := by
  constructor
  · decide
  · unfold MachineState.run
    exact runFor_fixpoint mach5 (by decide) MAX_ADDR

/-- Claim C5 (amended): run repeats fetch-decode-execute for at most
MAX_ADDR = 32768 iterations.  A Halt or fault produced by a step is
returned at once, but the loop does impose an implicit step bound: after
32768 fault-free steps it returns success on its own, even for a program
that has not halted — in particular for any state whose step returns the
state itself. -/
theorem C5_run_implicit_bound (s : MachineState) :
    (∀ e, s.exec_next = .fault e → s.run = .fault e) ∧
    (s.exec_next = .ok s → s.run = .ok s) := by
  constructor
  · intro e he
    have hm : MAX_ADDR = 32767 + 1 := rfl
    unfold MachineState.run
    rw [hm]
    simp only [runFor, he]
  · intro h
    unfold MachineState.run
    exact runFor_fixpoint s h MAX_ADDR

/-- Witness for C5_run_implicit_bound: a machine whose first step is the
halt opcode makes run return the Halt signal, and the self-looping mach5
makes run return success. -/
theorem C5_run_implicit_bound_witness :
    (MachineState.new [0]).run = .fault .Halt ∧ mach5.run = .ok mach5 :=
  ⟨(C5_run_implicit_bound (MachineState.new [0])).1 .Halt (by decide),
   (C5_run_implicit_bound mach5).2 (by decide)⟩

/-! Claim C6: not stores the 15-bit complement, never setting bit 15. -/

/-- Claim C6 is false on the code: not stores the 16-bit complement of
b = 1, namely 65534 — a value with bit 15 set — into memory at 0, not the
15-bit complement 32766 promised by the claim and by the handler's own
doc comment. -/
theorem C6_not_is_16bit :
    mach6.exec_next =
      .ok { mem := [65534, 0, 1], cur := 3,
            registers := List.replicate 8 0, stack := [] } := by decide

/-! Claim C7: call resolves its operand (register contents included) and
faults exactly when the resolved target is out of range. -/

/-- Claim C7 is false on the code: call never resolves a register
operand.  The raw word 32768 is rejected as InvalidAddress(32768, 1)
without reading register 0, although the resolved target 5 is below
32768 and the claim requires jumping there (the next-instruction address
2 has already been pushed when the fault is returned). -/
theorem C7_call_rejects_register_operand :
    mach7.exec_next = .fault (.InvalidAddress 32768 1) := by decide

/-! Claim C8: operand read resolution. -/

/-- Claim C8: for every raw operand word w resolved in a read context,
w below 32768 is the literal w itself; w in [32768, 32776) yields the
content of register w - 32768; w at or above 32776 faults with
InvalidRegister carrying the word and the position. -/
theorem C8_operand_resolution (s : MachineState) (w pos : Nat)
    (hreg : s.registers.length = 8) :
    (w < 32768 → s.resolveWord w pos = .ok w) ∧
    (32768 ≤ w → w < 32776 →
      ∃ v, s.registers.get? (w - 32768) = some v ∧ s.resolveWord w pos = .ok v) ∧
    (32776 ≤ w → s.resolveWord w pos = .fault (.InvalidRegister w pos)) := by
  refine ⟨fun h => ?_, fun h1 h2 => ?_, fun h => ?_⟩
  · simp [MachineState.resolveWord, MAX_ADDR, h]
  · have hlt : ¬ w < 32768 := by omega
    cases hg : s.registers.get? (w - 32768) with
    | none =>
      have := List.get?_eq_none.mp hg
      omega
    | some v =>
      refine ⟨v, rfl, ?_⟩
      have hg' : s.registers[w - 32768]? = some v := by
        rw [← List.get?_eq_getElem?]
        exact hg
      simp [MachineState.resolveWord, MachineState.get_register, MAX_ADDR, hlt, hg']
  · have hlt : ¬ w < 32768 := by omega
    have hnone : s.registers[w - 32768]? = none := by
      rw [← List.get?_eq_getElem?]
      exact List.get?_eq_none.mpr (by omega)
    simp [MachineState.resolveWord, MachineState.get_register, MAX_ADDR, hlt, hnone]

/-- Witness for C8_operand_resolution on mach8: 12345 is a literal, 32770
reads register 2 (content 33), 40000 is an invalid register. -/
theorem C8_operand_resolution_witness :
    mach8.resolveWord 12345 4 = .ok 12345 ∧
    (∃ v, mach8.registers.get? (32770 - 32768) = some v ∧
      mach8.resolveWord 32770 4 = .ok v) ∧
    mach8.resolveWord 40000 4 = .fault (.InvalidRegister 40000 4) :=
  ⟨(C8_operand_resolution mach8 12345 4 (by decide)).1 (by decide),
   (C8_operand_resolution mach8 32770 4 (by decide)).2.1 (by decide) (by decide),
   (C8_operand_resolution mach8 40000 4 (by decide)).2.2 (by decide)⟩

/-! Claim C9: empty-stack policies of pop and ret, and ret on a non-empty
stack. -/

/-- Claim C9 is false on the code as stated: with the non-empty stack
[40000], ret does not pop the top value into the program counter — it
faults with InvalidAddress(40000, 1) because the popped value is at or
above 32768. -/
theorem C9_ret_validates_popped_address :
    mach9.exec_next = .fault (.InvalidAddress 40000 1) := by decide

/-- Claim C9 (amended): pop on an empty stack yields EmptyStack at the
opcode position; ret on an empty stack yields Halt, never a fault;
and for a non-empty stack ret pops the top value into the program counter
when that value is below 32768, faulting with InvalidAddress otherwise. -/
theorem C9_stack_policies (s : MachineState) (h16 : s.cur + 1 < 65536) :
    (s.mem.get? s.cur = some 3 → s.stack = [] →
      s.exec_next = .fault (.EmptyStack s.cur)) ∧
    (s.mem.get? s.cur = some 18 → s.stack = [] →
      s.exec_next = .fault .Halt) ∧
    (∀ top rest, s.mem.get? s.cur = some 18 → s.stack = top :: rest →
      top < 32768 →
      s.exec_next = .ok { s with cur := top, stack := rest }) ∧
    (∀ top rest, s.mem.get? s.cur = some 18 → s.stack = top :: rest →
      32768 ≤ top →
      s.exec_next = .fault (.InvalidAddress top (s.cur + 1))) := by
  refine ⟨fun hop hstack => ?_, fun hop hstack => ?_,
    fun top rest hop hstack htop => ?_, fun top rest hop hstack htop => ?_⟩
  all_goals
    rw [List.get?_eq_getElem?] at hop
  · simp [MachineState.exec_next, u16add_ok h16, vecGet, hop,
      MachineState.pop, hstack]
  · simp [MachineState.exec_next, u16add_ok h16, vecGet, hop,
      MachineState.ret, hstack]
  · simp [MachineState.exec_next, u16add_ok h16, vecGet, hop,
      MachineState.ret, hstack, MAX_ADDR, htop]
  · have hlt : ¬ top < 32768 := by omega
    simp [MachineState.exec_next, u16add_ok h16, vecGet, hop,
      MachineState.ret, hstack, MAX_ADDR, hlt]

/-- Witness for C9_stack_policies on mach9w: ret with 7 on top of the
stack sets the counter to 7 and pops. -/
theorem C9_stack_policies_witness :
    mach9w.exec_next = .ok { mach9w with cur := 7, stack := [] } :=
  (C9_stack_policies mach9w (by decide)).2.2.1 7 [] (by decide) rfl (by decide)

/-! Claim C10: the program counter stays below 32768 in reachable states,
and a fetch past the end returns a fault. -/

/-- Claim C10 is false on the code: starting from the freshly constructed
mach10 (a full 32768-cell image), two fault-free steps — jmp 32767, then
the noop at 32767 — reach a state whose program counter is exactly 32768
before the next fetch; and attempting that fetch is an out-of-bounds
memory access (a panic), not a fault returned to the caller. -/
theorem C10_pc_reaches_32768_and_fetch_panics :
    mach10.exec_next = .ok { mach10 with cur := 32767 } ∧
    MachineState.exec_next { mach10 with cur := 32767 } =
      .ok { mach10 with cur := 32768 } ∧
    MachineState.exec_next { mach10 with cur := 32768 } = .panic := by
  refine ⟨by rfl, ?_, ?_⟩
  · have hg : mem10[(32767 : Nat)]? = some 21 := by
      rw [← List.get?_eq_getElem?]
      exact mem10_get_32767
    exact exec_next_noop { mach10 with cur := 32767 } (by decide) hg
  · exact exec_next_fetch_oob _
      (by rw [show MachineState.mem { mach10 with cur := 32768 } = mem10 from rfl,
        mem10_length])

/-- Claim C10 (amended): the program counter can legitimately reach 32768
before a fetch; an attempted fetch with the program counter at or past
the end of the memory Vec — including exactly 32768 on a full image — is
an out-of-bounds access, modelled as a panic, not a fault returned to the
caller. -/
theorem C10_fetch_past_end_panics (s : MachineState)
    (h : s.mem.length ≤ s.cur) :
    s.exec_next = .panic :=
  exec_next_fetch_oob s h

/-- Witness for C10_fetch_past_end_panics on mach10w. -/
theorem C10_fetch_past_end_panics_witness :
    mach10w.exec_next = .panic :=
  C10_fetch_past_end_panics mach10w (by decide)
